import Mathlib

/-!
Shallow embedding of the smart-home agent worker (agent_worker.py), covering the
HomeAssistant class: call_service, get_entity_area, turn_on_light, turn_off_light,
simple_get_state, change_light_state and search_smart_home_devices.

The remote platform (Home Assistant REST API) is modelled as an oracle `Platform`
giving, for each request the code can issue, either a raised transport exception
(constructor `exn`, modelling `requests` raising) or an HTTP response with a status
code, a body text and a parsed body.  Each embedded operation returns the list of
requests it issues (its trace) together with its result; a Python exception that
propagates out of an operation is modelled as `Except.error` carrying the
exception detail, and `change_light_state`, whose body is wrapped in
try/except, is total and returns a plain string.

The fuzzy scoring function `thefuzz.fuzz.partial_ratio` is an external library,
not code of this repository; it enters the embedding as a parameter
`pr : String → String → Nat` (scores are 0-100 integers).
-/

namespace SmartHome

/-- A device snapshot entry as consumed by the code: its `entity_id` field and the
`friendly_name` taken from its attributes (the code reads
`entity.attributes.get("friendly_name", "")`, so a missing friendly name is
already folded to the empty string here). -/
structure Entity where
  entity_id : String
  friendly_name : String
deriving DecidableEq, Repr

/-- A match candidate record, mirroring the dict built in
`search_smart_home_devices`: entity_id, entity_name (the friendly name),
entity_area (the best-effort placement, `none` for Python None) and match_score. -/
structure Candidate where
  entity_id : String
  entity_name : String
  entity_area : Option String
  match_score : Nat
deriving DecidableEq, Repr

/-- Outcome of one HTTP call: either the transport layer raised (`exn` with the
exception detail), or the platform answered with a status code, the raw response
text, and a parsed body of type `α` (used only where the code parses the body). -/
inductive HttpResp (α : Type) where
  | exn (e : String)
  | resp (status : Nat) (text : String) (body : α)
deriving DecidableEq, Repr

/-- The remote platform as a deterministic oracle, one field per endpoint the
code calls.
* `writeResp domain service entity_id extra` answers
  `POST /api/services/domain/service` with body entity_id plus the extra
  parameters (the body is never parsed by `call_service`, hence `Unit`);
* `stateResp entity_id` answers `GET /api/states/entity_id`; its parsed body
  models the evaluation of `response.json()["state"]`, which can itself raise
  (`Except.error`), e.g. on malformed JSON or a missing key;
* `statesResp` answers the bulk `GET /api/states`; its parsed body models
  `response.json()` decoded into the snapshot entry list, which can raise;
* `templateResp entity_id` answers the `POST /api/template` area-name query for
  that entity (only `response.text` is consumed). -/
structure Platform where
  writeResp : String → String → String → List (String × Nat) → HttpResp Unit
  stateResp : String → HttpResp (Except String String)
  statesResp : HttpResp (Except String (List Entity))
  templateResp : String → HttpResp Unit

/-- One request issued to the platform, as recorded in operation traces. -/
inductive Request where
  | write (domain service entity_id : String) (extra : List (String × Nat))
  | readState (entity_id : String)
  | template (entity_id : String)
  | readAll
deriving DecidableEq, Repr

/-- Whether a request is a write command (`POST /api/services/...`). -/
def Request.isWrite : Request → Bool
  | Request.write _ _ _ _ => true
  | _ => false

/-- Whether a request is a primitive-state read (`GET /api/states/id`). -/
def Request.isReadState : Request → Bool
  | Request.readState _ => true
  | _ => false

/-- Whether a request is a templated placement (area) query. -/
def Request.isTemplate : Request → Bool
  | Request.template _ => true
  | _ => false

/-- Embedding of `HomeAssistant.call_service`: issues one POST and returns
True exactly when the status code is 200 (any other status prints a diagnostic
and returns False); a raised transport exception propagates. -/
def call_service (p : Platform) (domain service entity_id : String)
    (extra : List (String × Nat)) : List Request × Except String Bool :=
  ([Request.write domain service entity_id extra],
   match p.writeResp domain service entity_id extra with
   | HttpResp.exn e => Except.error e
   | HttpResp.resp status _ _ => Except.ok (status == 200))

/-- The brightness conversion in `turn_on_light`:
`int(brightness * 255 / 100)`.  For the documented domain (percent 0-100) the
Python float division is exact enough that truncation coincides with the floor,
so on naturals this is `brightness * 255 / 100` with natural division. -/
def brightnessValue (brightness : Nat) : Nat :=
  brightness * 255 / 100

/-- Embedding of `HomeAssistant.turn_on_light`: builds the extra-parameter dict
(adding the converted brightness when one is given) and calls
`call_service "light" "turn_on"`. -/
def turn_on_light (p : Platform) (entity_id : String) (brightness : Option Nat) :
    List Request × Except String Bool :=
  call_service p "light" "turn_on" entity_id
    (match brightness with
     | some b => [("brightness", brightnessValue b)]
     | none => [])

/-- Embedding of `HomeAssistant.turn_off_light`: calls
`call_service "light" "turn_off"` with no extra parameters. -/
def turn_off_light (p : Platform) (entity_id : String) :
    List Request × Except String Bool :=
  call_service p "light" "turn_off" entity_id []

/-- Embedding of `HomeAssistant.simple_get_state`: one GET; on status 200 the
code evaluates `response.json()["state"]` (which may raise), otherwise it prints
a diagnostic and returns None. -/
def simple_get_state (p : Platform) (entity_id : String) :
    List Request × Except String (Option String) :=
  ([Request.readState entity_id],
   match p.stateResp entity_id with
   | HttpResp.exn e => Except.error e
   | HttpResp.resp status _ body =>
     if status == 200 then
       match body with
       | Except.ok s => Except.ok (some s)
       | Except.error e => Except.error e
     else Except.ok none)

/-- Model of Python str.lower, mapping the ASCII lower-casing over the
characters (written structurally over the character list so that concrete
inputs evaluate). -/
def pyLower (s : String) : String :=
  ⟨s.data.map Char.toLower⟩

/-- Model of Python str.strip with no argument: remove leading and trailing
whitespace (written structurally over the character list so that concrete
inputs evaluate). -/
def pyStrip (s : String) : String :=
  ⟨((s.data.dropWhile Char.isWhitespace).reverse.dropWhile
      Char.isWhitespace).reverse⟩

/-- Embedding of `HomeAssistant.get_entity_area`: one templated POST; on a
non-200 status the code returns None; on 200 it strips the response text and
returns None when the stripped text is empty, otherwise the stripped text. -/
def get_entity_area (p : Platform) (entity_id : String) :
    List Request × Except String (Option String) :=
  ([Request.template entity_id],
   match p.templateResp entity_id with
   | HttpResp.exn e => Except.error e
   | HttpResp.resp status text _ =>
     if status == 200 then
       Except.ok (if (pyStrip text).data.isEmpty then none else some (pyStrip text))
     else Except.ok none)

/-- Rendering of a Python value inside an f-string where the value is either a
string or None: None renders as the four characters None. -/
def pyStr : Option String → String
  | some s => s
  | none => "None"

/-- The brightness suffix appended to the success message when a brightness was
given: the Python code appends " with brightness set to {brightness}%". -/
def brightnessNote : Option Nat → String
  | some b => " with brightness set to " ++ toString b ++ "%"
  | none => ""

/-- The message returned on the fully successful path of `change_light_state`:
the incrementally built result string, "Changing light state for {id}\n",
then the action core ("Turned light on" plus the brightness note, or
"Turned light off"), then "\nCurrent state of {id}: {new_state}". -/
def successMessage (entity_id core : String) (st : Option String) : String :=
  "Changing light state for " ++ entity_id ++ "\n" ++ core
    ++ "\nCurrent state of " ++ entity_id ++ ": " ++ pyStr st

/-- Embedding of `HomeAssistant.change_light_state`.  The whole Python body sits
inside try/except, so the embedding is total: any `Except.error e` produced by a
sub-operation becomes the string given by the except branch,
`"Error changing light state: " ++ e`.  The first component is the trace of
requests issued before the function returned. -/
def change_light_state (p : Platform) (entity_id : String) (state : Bool)
    (brightness : Option Nat) : List Request × String :=
  if state then
    match (turn_on_light p entity_id brightness).2 with
    | Except.error e =>
      ((turn_on_light p entity_id brightness).1, "Error changing light state: " ++ e)
    | Except.ok false =>
      ((turn_on_light p entity_id brightness).1, "Failed to turn on " ++ entity_id)
    | Except.ok true =>
      match (simple_get_state p entity_id).2 with
      | Except.error e =>
        ((turn_on_light p entity_id brightness).1 ++ (simple_get_state p entity_id).1,
         "Error changing light state: " ++ e)
      | Except.ok st =>
        ((turn_on_light p entity_id brightness).1 ++ (simple_get_state p entity_id).1,
         successMessage entity_id ("Turned light on" ++ brightnessNote brightness) st)
  else
    match (turn_off_light p entity_id).2 with
    | Except.error e =>
      ((turn_off_light p entity_id).1, "Error changing light state: " ++ e)
    | Except.ok false =>
      ((turn_off_light p entity_id).1, "Failed to turn off " ++ entity_id)
    | Except.ok true =>
      match (simple_get_state p entity_id).2 with
      | Except.error e =>
        ((turn_off_light p entity_id).1 ++ (simple_get_state p entity_id).1,
         "Error changing light state: " ++ e)
      | Except.ok st =>
        ((turn_off_light p entity_id).1 ++ (simple_get_state p entity_id).1,
         successMessage entity_id "Turned light off" st)

/-- The identifier-field fuzzy score computed in the search loop:
`pr(query.lower(), entity_id.lower())`. -/
def idScore (pr : String → String → Nat) (query : String) (e : Entity) : Nat :=
  pr (pyLower query) (pyLower e.entity_id)

/-- The friendly-name-field fuzzy score computed in the search loop:
`pr(query.lower(), friendly_name.lower())`. -/
def nameScore (pr : String → String → Nat) (query : String) (e : Entity) : Nat :=
  pr (pyLower query) (pyLower e.friendly_name)

/-- The acceptance test of the search loop: `id_score > 70 or name_score > 70`. -/
def matchesB (pr : String → String → Nat) (query : String) (e : Entity) : Bool :=
  decide (70 < idScore pr query e) || decide (70 < nameScore pr query e)

/-- The comparison under which search results are ordered: Python
`sort(key=match_score, reverse=True)` is a stable sort putting larger scores
first, i.e. a stable sort by this relation. -/
def candLE (a b : Candidate) : Prop :=
  b.match_score ≤ a.match_score

instance : DecidableRel candLE := fun a b =>
  inferInstanceAs (Decidable (b.match_score ≤ a.match_score))

instance : IsTotal Candidate candLE :=
  ⟨fun a b => Nat.le_total b.match_score a.match_score⟩

instance : IsTrans Candidate candLE :=
  ⟨fun _ _ _ hab hbc => Nat.le_trans hbc hab⟩

/-- The body of the search loop over the snapshot: for each entry compute the
two scores, and when the threshold test passes, resolve the area (a raised
exception there propagates, aborting the whole search) and append the candidate
record with `match_score = max(id_score, name_score)`.  The first component is
the trace of templated placement queries issued. -/
def collectMatches (p : Platform) (pr : String → String → Nat) (query : String) :
    List Entity → List Request × Except String (List Candidate)
  | [] => ([], Except.ok [])
  | e :: es =>
    if matchesB pr query e then
      match (get_entity_area p e.entity_id).2 with
      | Except.error err => ([Request.template e.entity_id], Except.error err)
      | Except.ok area =>
        match collectMatches p pr query es with
        | (t2, Except.error err) => (Request.template e.entity_id :: t2, Except.error err)
        | (t2, Except.ok cs) =>
          (Request.template e.entity_id :: t2,
           Except.ok (⟨e.entity_id, e.friendly_name, area,
                       max (idScore pr query e) (nameScore pr query e)⟩ :: cs))
    else collectMatches p pr query es

/-- The structured value `search_smart_home_devices` serializes with
`json.dumps`: either the candidate list, or the error object
`{"error": msg}` built on a failed bulk read. -/
inductive SearchOut where
  | found (cs : List Candidate)
  | errorPayload (msg : String)
deriving DecidableEq, Repr

/-- Embedding of `HomeAssistant.search_smart_home_devices`: bulk-read the
snapshot (non-200 yields the structured error payload), run the matching loop,
and stably sort the candidates by descending match_score.  There is no
try/except in the Python function, so exceptions raised by the bulk read, by
JSON decoding or inside the loop propagate as `Except.error`. -/
def search_smart_home_devices (p : Platform) (pr : String → String → Nat)
    (query : String) : List Request × Except String SearchOut :=
  match p.statesResp with
  | HttpResp.exn e => ([Request.readAll], Except.error e)
  | HttpResp.resp status text body =>
    if status == 200 then
      match body with
      | Except.error e => ([Request.readAll], Except.error e)
      | Except.ok all_entities =>
        match collectMatches p pr query all_entities with
        | (t, Except.error e) => (Request.readAll :: t, Except.error e)
        | (t, Except.ok cs) =>
          (Request.readAll :: t,
           Except.ok (SearchOut.found (List.insertionSort candLE cs)))
    else
      ([Request.readAll],
       Except.ok (SearchOut.errorPayload
         ("Error: " ++ toString status ++ " - " ++ text)))

/-! ### Spec-side definitions

The following definitions translate vocabulary of the specification (not of the
code) so that the claims can be stated: the rounding the spec prescribes for the
brightness conversion, and the success flag of the spec-level Command Result
abstraction read off a returned message. -/

/-- Rounding of `num / den` to the nearest integer with ties to even, the
semantics of Python round on nonnegative arguments.  This is the conversion the
spec prescribes: `round(percent * 255 / 100)`. -/
def pyRound (num den : Nat) : Nat :=
  let q := num / den
  let r := num % den
  if 2 * r < den then q
  else if den < 2 * r then q + 1
  else if q % 2 == 0 then q else q + 1

/-- The brightness value the spec says is sent: `round(percent * 255 / 100)`. -/
def specBrightness (percent : Nat) : Nat :=
  pyRound (percent * 255) 100

/-- The success flag of the spec-level Command Result, read off the string
`change_light_state` returns: the code builds every message of a successful
operation on the prefix "Changing light state for ", while the two failure
shapes are "Failed to turn on/off {id}" and
"Error changing light state: {detail}". -/
def isSuccessResult (s : String) : Prop :=
  ∃ rest, s = "Changing light state for " ++ rest

/-- The placement stored for an accepted entity on a search path where its area
lookup returned without raising (on an exception path the loop aborts instead,
so this default is never observed in results). -/
def areaOk (p : Platform) (entity_id : String) : Option String :=
  match (get_entity_area p entity_id).2 with
  | Except.ok a => a
  | Except.error _ => none

/-- The candidate record the search loop builds for an accepted entity. -/
def candOf (p : Platform) (pr : String → String → Nat) (query : String)
    (e : Entity) : Candidate :=
  ⟨e.entity_id, e.friendly_name, areaOk p e.entity_id,
   max (idScore pr query e) (nameScore pr query e)⟩

/-! ### Concrete platforms and inputs for witnesses and counterexamples -/

/-- The kitchen sink light snapshot entry of the spec scenario. -/
def eKitchen : Entity := ⟨"light.kitchen_sink", "Kitchen Sink Light"⟩

/-- The living room light snapshot entry of the spec scenario. -/
def eLiving : Entity := ⟨"light.living_room", "Living Room Light"⟩

/-- A concrete stand-in for the external fuzzy scorer: 95 when the scored field
is the kitchen sink identifier, 10 otherwise. -/
def prKitchen : String → String → Nat :=
  fun _ t => if t = "light.kitchen_sink" then 95 else 10

/-- A platform whose every endpoint answers 200 with fixed, well-formed
bodies. -/
def pOk : Platform :=
  ⟨fun _ _ _ _ => HttpResp.resp 200 "" (),
   fun _ => HttpResp.resp 200 "" (Except.ok "on"),
   HttpResp.resp 200 "" (Except.ok [eKitchen, eLiving]),
   fun _ => HttpResp.resp 200 "Kitchen" ()⟩

/-- A platform whose every write answers status 500 (all reads answer 200). -/
def pWriteFail : Platform :=
  ⟨fun _ _ _ _ => HttpResp.resp 500 "boom" (),
   fun _ => HttpResp.resp 200 "" (Except.ok "on"),
   HttpResp.resp 200 "" (Except.ok [eKitchen, eLiving]),
   fun _ => HttpResp.resp 200 "Kitchen" ()⟩

/-- A platform whose every write raises a transport exception. -/
def pWriteExn : Platform :=
  ⟨fun _ _ _ _ => HttpResp.exn "conn refused",
   fun _ => HttpResp.resp 200 "" (Except.ok "on"),
   HttpResp.resp 200 "" (Except.ok [eKitchen, eLiving]),
   fun _ => HttpResp.resp 200 "Kitchen" ()⟩

/-- A platform where writes succeed but the primitive-state read raises a
transport exception. -/
def pReadExn : Platform :=
  ⟨fun _ _ _ _ => HttpResp.resp 200 "" (),
   fun _ => HttpResp.exn "boom",
   HttpResp.resp 200 "" (Except.ok [eKitchen, eLiving]),
   fun _ => HttpResp.resp 200 "Kitchen" ()⟩

/-- A platform whose bulk snapshot read answers 503. -/
def pSnapshotDown : Platform :=
  ⟨fun _ _ _ _ => HttpResp.resp 200 "" (),
   fun _ => HttpResp.resp 200 "" (Except.ok "on"),
   HttpResp.resp 503 "unavailable" (Except.ok []),
   fun _ => HttpResp.resp 200 "Kitchen" ()⟩

/-- A platform whose template endpoint answers 200 with whitespace-only text,
so every placement resolution comes back empty. -/
def pAreaEmpty : Platform :=
  ⟨fun _ _ _ _ => HttpResp.resp 200 "" (),
   fun _ => HttpResp.resp 200 "" (Except.ok "on"),
   HttpResp.resp 200 "" (Except.ok [eKitchen, eLiving]),
   fun _ => HttpResp.resp 200 "  " ()⟩

/-! ### Helper lemmas -/

/-- The first character of an appended string is the first character of the
left part when that part is nonempty. -/
theorem data_head_append (a x : String) (c : Char) (h : a.data.head? = some c) :
    (a ++ x).data.head? = some c := by
  rw [String.data_append, List.head?_append, h]
  rfl

/-- A string whose first character is not the letter C cannot be of the success
shape, since every success message starts with "Changing light state for ". -/
theorem not_success_of_head {s : String} {c : Char} (h : s.data.head? = some c)
    (hc : c ≠ 'C') : ¬ isSuccessResult s := by
  rintro ⟨rest, rfl⟩
  rw [data_head_append "Changing light state for " rest 'C' (by decide)] at h
  exact hc (Option.some.inj h).symm

/-- Messages of the fully successful path are of the success shape. -/
theorem isSuccessResult_successMessage (entity_id core : String)
    (st : Option String) : isSuccessResult (successMessage entity_id core st) := by
  refine ⟨entity_id ++ ("\n" ++ (core ++ ("\nCurrent state of "
    ++ (entity_id ++ (": " ++ pyStr st))))), ?_⟩
  simp [successMessage, String.append_assoc]

/-- The failed-write message for turning on is not of the success shape. -/
theorem not_success_failed_on (entity_id : String) :
    ¬ isSuccessResult ("Failed to turn on " ++ entity_id) :=
  not_success_of_head (data_head_append _ _ 'F' (by decide)) (by decide)

/-- The failed-write message for turning off is not of the success shape. -/
theorem not_success_failed_off (entity_id : String) :
    ¬ isSuccessResult ("Failed to turn off " ++ entity_id) :=
  not_success_of_head (data_head_append _ _ 'F' (by decide)) (by decide)

/-- The caught-exception message is not of the success shape. -/
theorem not_success_error (e : String) :
    ¬ isSuccessResult ("Error changing light state: " ++ e) :=
  not_success_of_head (data_head_append _ _ 'E' (by decide)) (by decide)

/-- Equation lemma: a rejected entry contributes nothing to the loop. -/
theorem collectMatches_cons_neg {p : Platform} {pr : String → String → Nat}
    {query : String} {e : Entity} {es : List Entity}
    (hm : matchesB pr query e = false) :
    collectMatches p pr query (e :: es) = collectMatches p pr query es := by
  rw [collectMatches, hm]
  simp

/-- Equation lemma: an accepted entry whose area lookup raises aborts the
loop with that exception, after issuing its one placement query. -/
theorem collectMatches_cons_err {p : Platform} {pr : String → String → Nat}
    {query : String} {e : Entity} {es : List Entity} {err : String}
    (hm : matchesB pr query e = true)
    (ha : (get_entity_area p e.entity_id).2 = Except.error err) :
    collectMatches p pr query (e :: es)
      = ([Request.template e.entity_id], Except.error err) := by
  rw [collectMatches, hm, ha]
  rfl

/-- Equation lemma: an accepted entry whose area lookup returns, followed by a
raising tail, keeps the tail's exception. -/
theorem collectMatches_cons_tailErr {p : Platform} {pr : String → String → Nat}
    {query : String} {e : Entity} {es : List Entity} {area : Option String}
    {t2 : List Request} {err : String}
    (hm : matchesB pr query e = true)
    (ha : (get_entity_area p e.entity_id).2 = Except.ok area)
    (hr : collectMatches p pr query es = (t2, Except.error err)) :
    collectMatches p pr query (e :: es)
      = (Request.template e.entity_id :: t2, Except.error err) := by
  rw [collectMatches, hm, ha, hr]
  rfl

/-- Equation lemma: an accepted entry whose area lookup returns, followed by a
returning tail, contributes its placement query and its candidate record. -/
theorem collectMatches_cons_ok {p : Platform} {pr : String → String → Nat}
    {query : String} {e : Entity} {es : List Entity} {area : Option String}
    {t2 : List Request} {cs2 : List Candidate}
    (hm : matchesB pr query e = true)
    (ha : (get_entity_area p e.entity_id).2 = Except.ok area)
    (hr : collectMatches p pr query es = (t2, Except.ok cs2)) :
    collectMatches p pr query (e :: es)
      = (Request.template e.entity_id :: t2,
         Except.ok (⟨e.entity_id, e.friendly_name, area,
                     max (idScore pr query e) (nameScore pr query e)⟩ :: cs2)) := by
  rw [collectMatches, hm, ha, hr]
  rfl

/-- On a non-raising run, the matching loop issues exactly one templated
placement query per accepted entry, in snapshot order, and returns the
candidate record of every accepted entry, in snapshot order. -/
theorem collectMatches_ok (p : Platform) (pr : String → String → Nat)
    (query : String) : ∀ (es : List Entity) (cs : List Candidate),
    (collectMatches p pr query es).2 = Except.ok cs →
      collectMatches p pr query es
        = ((es.filter (matchesB pr query)).map (fun e => Request.template e.entity_id),
           Except.ok ((es.filter (matchesB pr query)).map (candOf p pr query)))
  | [], _, _ => by simp [collectMatches]
  | e :: es, cs, h => by
    cases hm : matchesB pr query e with
    | false =>
      rw [collectMatches_cons_neg hm] at h ⊢
      simp only [List.filter_cons, hm, if_false]
      exact collectMatches_ok p pr query es cs h
    | true =>
      cases ha : (get_entity_area p e.entity_id).2 with
      | error err =>
        rw [collectMatches_cons_err hm ha] at h
        simp at h
      | ok area =>
        rcases hr : collectMatches p pr query es with ⟨t2, r2⟩
        cases r2 with
        | error err =>
          rw [collectMatches_cons_tailErr hm ha hr] at h
          simp at h
        | ok cs2 =>
          have hrec := collectMatches_ok p pr query es cs2 (by rw [hr])
          rw [hr, Prod.mk.injEq] at hrec
          have hcs2 := Except.ok.inj hrec.2
          have harea : areaOk p e.entity_id = area := by simp [areaOk, ha]
          rw [collectMatches_cons_ok hm ha hr, hrec.1, hcs2]
          simp [List.filter_cons, hm, candOf, harea]

/-- When every area lookup returns without raising, the matching loop never
raises. -/
theorem collectMatches_total (p : Platform) (pr : String → String → Nat)
    (query : String) (hA : ∀ eid, ∃ a, (get_entity_area p eid).2 = Except.ok a) :
    ∀ es : List Entity, ∃ cs, (collectMatches p pr query es).2 = Except.ok cs
  | [] => ⟨[], rfl⟩
  | e :: es => by
    obtain ⟨cs, hcs⟩ := collectMatches_total p pr query hA es
    obtain ⟨a, ha⟩ := hA e.entity_id
    cases hm : matchesB pr query e with
    | false =>
      refine ⟨cs, ?_⟩
      rw [collectMatches_cons_neg hm]
      exact hcs
    | true =>
      rcases hr : collectMatches p pr query es with ⟨t2, r2⟩
      rw [hr] at hcs
      cases r2 with
      | error err => simp at hcs
      | ok cs2 =>
        refine ⟨⟨e.entity_id, e.friendly_name, a,
          max (idScore pr query e) (nameScore pr query e)⟩ :: cs2, ?_⟩
        rw [collectMatches_cons_ok hm ha hr]

/-- Filtering for one exact score commutes with an ordered insert for the
descending-score order: the insert passes only over strictly larger scores, so
it cannot cross an element of the score being filtered. -/
theorem filter_score_orderedInsert (s : Nat) (c : Candidate) (l : List Candidate) :
    (List.orderedInsert candLE c l).filter (fun d => d.match_score == s)
    = if c.match_score == s then c :: l.filter (fun d => d.match_score == s)
      else l.filter (fun d => d.match_score == s) := by
  induction l with
  | nil =>
    rw [List.orderedInsert]
    by_cases hc : c.match_score == s
    · simp [hc]
    · simp [hc]
  | cons b l ih =>
    rw [List.orderedInsert]
    by_cases hr : candLE c b
    · rw [if_pos hr]
      by_cases hc : c.match_score == s
      · simp [List.filter, hc]
      · simp [List.filter, hc]
    · rw [if_neg hr]
      have hlt : c.match_score < b.match_score := Nat.lt_of_not_le hr
      by_cases hc : c.match_score == s
      · have hb : (b.match_score == s) = false := by
          have : c.match_score = s := by simpa using hc
          have : s < b.match_score := this ▸ hlt
          simp [Nat.ne_of_gt this]
        simp [List.filter, hb, ih, hc]
      · have hc2 : (c.match_score == s) = false := by simpa using hc
        simp [List.filter, ih, hc2]

/-- Filtering for one exact score commutes with the stable descending sort:
among equal scores the sort preserves the original order. -/
theorem filter_score_insertionSort (s : Nat) (l : List Candidate) :
    (List.insertionSort candLE l).filter (fun d => d.match_score == s)
    = l.filter (fun d => d.match_score == s) := by
  induction l with
  | nil => rfl
  | cons c l ih =>
    rw [List.insertionSort, filter_score_orderedInsert]
    by_cases hc : c.match_score == s
    · rw [if_pos hc, ih]
      simp [List.filter, hc]
    · rw [if_neg hc, ih]
      have hc2 : (c.match_score == s) = false := by simpa using hc
      simp [List.filter, hc2]

/-! ### Claim theorems -/

/-- C1, counterexample: at brightness percent 50 the write command carries the
brightness value 127, the Python int() truncation of 127.5, while the value the
claim prescribes, round(50*255/100), is 128. -/
theorem brightness_sent_truncation_counterexample :
    (change_light_state pWriteFail "light.x" true (some 50)).1
      = [Request.write "light" "turn_on" "light.x" [("brightness", 127)]]
    ∧ specBrightness 50 = 128 ∧ (127 : Nat) ≠ 128 :=
  ⟨rfl, rfl, by decide⟩

/-- C1, amended: for every platform, identifier and brightness percent, the
write command issued by change_light_state(id, true, some b) carries the
brightness value b*255/100 rounded toward zero (Python int() truncation), not
the rounded-to-nearest value; at b = 50 this sends 127, not 128. -/
theorem change_light_state_brightness_sent (p : Platform) (entity_id : String)
    (b : Nat) :
    (change_light_state p entity_id true (some b)).1.filter Request.isWrite
      = [Request.write "light" "turn_on" entity_id [("brightness", b * 255 / 100)]] := by
  cases hw : (turn_on_light p entity_id (some b)).2 with
  | error e =>
    rw [change_light_state, hw]
    simp [turn_on_light, call_service, Request.isWrite, brightnessValue]
  | ok bb =>
    cases bb with
    | false =>
      rw [change_light_state, hw]
      simp [turn_on_light, call_service, Request.isWrite, brightnessValue]
    | true =>
      cases hr : (simple_get_state p entity_id).2 with
      | error e =>
        rw [change_light_state, hw, hr]
        simp [turn_on_light, call_service, simple_get_state, Request.isWrite,
          brightnessValue]
      | ok st =>
        rw [change_light_state, hw, hr]
        simp [turn_on_light, call_service, simple_get_state, Request.isWrite,
          brightnessValue]

/-- C4: every call to change_light_state issues exactly one write command, and
when that write reports failure the call returns at once: the result is the
failure message naming the identifier and the action, no primitive-state
read-back appears in the trace, and the result is not of the success shape. -/
theorem change_light_state_write_once_fail_fast (p : Platform)
    (entity_id : String) (state : Bool) (brightness : Option Nat) :
    ((change_light_state p entity_id state brightness).1.filter Request.isWrite).length = 1
    ∧ ((if state then (turn_on_light p entity_id brightness).2
        else (turn_off_light p entity_id).2) = Except.ok false →
        (change_light_state p entity_id state brightness).2
          = "Failed to turn " ++ (if state then "on " else "off ") ++ entity_id
        ∧ (change_light_state p entity_id state brightness).1.filter Request.isReadState = []
        ∧ ¬ isSuccessResult (change_light_state p entity_id state brightness).2) := by
  cases state with
  | true =>
    cases hw : (turn_on_light p entity_id brightness).2 with
    | error e =>
      refine ⟨?_, ?_⟩
      · rw [change_light_state, hw]
        simp [turn_on_light, call_service, Request.isWrite]
      · intro hfail
        simp [hw] at hfail
    | ok bb =>
      cases bb with
      | false =>
        refine ⟨?_, fun _ => ⟨?_, ?_, ?_⟩⟩
        · rw [change_light_state, hw]
          simp [turn_on_light, call_service, Request.isWrite]
        · rw [change_light_state, hw]
          simp
        · rw [change_light_state, hw]
          simp [turn_on_light, call_service, Request.isReadState]
        · rw [change_light_state, hw]
          simp only [if_true]
          exact not_success_failed_on entity_id
      | true =>
        refine ⟨?_, ?_⟩
        · cases hr : (simple_get_state p entity_id).2 with
          | error e =>
            rw [change_light_state, hw, hr]
            simp [turn_on_light, call_service, simple_get_state, Request.isWrite]
          | ok st =>
            rw [change_light_state, hw, hr]
            simp [turn_on_light, call_service, simple_get_state, Request.isWrite]
        · intro hfail
          simp [hw] at hfail
  | false =>
    cases hw : (turn_off_light p entity_id).2 with
    | error e =>
      refine ⟨?_, ?_⟩
      · rw [change_light_state, hw]
        simp [turn_off_light, call_service, Request.isWrite]
      · intro hfail
        simp [hw] at hfail
    | ok bb =>
      cases bb with
      | false =>
        refine ⟨?_, fun _ => ⟨?_, ?_, ?_⟩⟩
        · rw [change_light_state, hw]
          simp [turn_off_light, call_service, Request.isWrite]
        · rw [change_light_state, hw]
          simp
        · rw [change_light_state, hw]
          simp [turn_off_light, call_service, Request.isReadState]
        · rw [change_light_state, hw]
          simp only [if_false]
          exact not_success_failed_off entity_id
      | true =>
        refine ⟨?_, ?_⟩
        · cases hr : (simple_get_state p entity_id).2 with
          | error e =>
            rw [change_light_state, hw, hr]
            simp [turn_off_light, call_service, simple_get_state, Request.isWrite]
          | ok st =>
            rw [change_light_state, hw, hr]
            simp [turn_off_light, call_service, simple_get_state, Request.isWrite]
        · intro hfail
          simp [hw] at hfail

/-- C5: change_light_state converts every raised exception into the string
"Error changing light state: detail" instead of propagating it -- first
conjunct: the write raises; second conjunct: the write succeeds and the
read-back raises -- and against a platform whose every write returns a non-2xx
status without raising, the result is the failure message naming the
identifier, which is not of the success shape. -/
theorem change_light_state_never_raises (p : Platform) (entity_id : String)
    (state : Bool) (brightness : Option Nat) :
    (∀ e, (if state then (turn_on_light p entity_id brightness).2
           else (turn_off_light p entity_id).2) = Except.error e →
       (change_light_state p entity_id state brightness).2
         = "Error changing light state: " ++ e)
    ∧ (∀ e, (if state then (turn_on_light p entity_id brightness).2
             else (turn_off_light p entity_id).2) = Except.ok true →
         (simple_get_state p entity_id).2 = Except.error e →
         (change_light_state p entity_id state brightness).2
           = "Error changing light state: " ++ e)
    ∧ ((∀ domain service eid extra, ∃ st txt,
          p.writeResp domain service eid extra = HttpResp.resp st txt ()
          ∧ st ≠ 200) →
        (change_light_state p entity_id state brightness).2
          = "Failed to turn " ++ (if state then "on " else "off ") ++ entity_id
        ∧ ¬ isSuccessResult (change_light_state p entity_id state brightness).2) := by
  cases state with
  | true =>
    refine ⟨?_, ?_, ?_⟩
    · intro e hw
      simp only [if_true] at hw
      rw [change_light_state, hw]
      rfl
    · intro e hw hr
      simp only [if_true] at hw
      rw [change_light_state, hw, hr]
      rfl
    · intro hplat
      obtain ⟨st, txt, hwr, hne⟩ := hplat "light" "turn_on" entity_id
        (match brightness with
         | some b => [("brightness", brightnessValue b)]
         | none => [])
      have hw : (turn_on_light p entity_id brightness).2 = Except.ok false := by
        simp only [turn_on_light, call_service]
        simp [hwr, beq_false_of_ne hne]
      rw [change_light_state, hw]
      exact ⟨rfl, not_success_failed_on entity_id⟩
  | false =>
    refine ⟨?_, ?_, ?_⟩
    · intro e hw
      simp only [Bool.false_eq_true, if_false] at hw
      rw [change_light_state, hw]
      rfl
    · intro e hw hr
      simp only [Bool.false_eq_true, if_false] at hw
      rw [change_light_state, hw, hr]
      rfl
    · intro hplat
      obtain ⟨st, txt, hwr, hne⟩ := hplat "light" "turn_off" entity_id []
      have hw : (turn_off_light p entity_id).2 = Except.ok false := by
        simp only [turn_off_light, call_service]
        simp [hwr, beq_false_of_ne hne]
      rw [change_light_state, hw]
      exact ⟨rfl, not_success_failed_off entity_id⟩

/-- C6, counterexample: against a platform where the write succeeds and the
read-back raises a transport exception, the write is reported successful by the
platform and the read-back is issued, yet the call returns the caught-exception
message, which is not of the success shape: success does not remain true. -/
theorem readback_exception_flips_success_counterexample :
    (turn_on_light pReadExn "light.x" none).2 = Except.ok true
    ∧ (change_light_state pReadExn "light.x" true none).1.filter Request.isReadState
        = [Request.readState "light.x"]
    ∧ (change_light_state pReadExn "light.x" true none).2
        = "Error changing light state: boom"
    ∧ ¬ isSuccessResult (change_light_state pReadExn "light.x" true none).2 :=
  ⟨rfl, rfl, rfl,
   not_success_of_head (s := (change_light_state pReadExn "light.x" true none).2)
     (c := 'E') (by decide) (by decide)⟩

/-- C6, amended: for every call whose write command succeeds and whose
follow-up read returns without raising (in particular when it returns None
because of a non-success status), exactly one primitive-state read is issued,
its token (None rendered for an absent state) is embedded in the returned
message, and the result keeps the success shape.  When the read-back raises,
the exception handler returns the error message instead (see the
counterexample), so success survives only non-raising read-back failures. -/
theorem change_light_state_readback (p : Platform) (entity_id : String)
    (state : Bool) (brightness : Option Nat) (st : Option String)
    (hw : (if state then (turn_on_light p entity_id brightness).2
           else (turn_off_light p entity_id).2) = Except.ok true)
    (hr : (simple_get_state p entity_id).2 = Except.ok st) :
    (change_light_state p entity_id state brightness).1.filter Request.isReadState
      = [Request.readState entity_id]
    ∧ (change_light_state p entity_id state brightness).2
        = successMessage entity_id
            (if state then "Turned light on" ++ brightnessNote brightness
             else "Turned light off") st
    ∧ isSuccessResult (change_light_state p entity_id state brightness).2 := by
  cases state with
  | true =>
    simp only [if_true] at hw ⊢
    rw [change_light_state, hw, hr]
    refine ⟨?_, rfl, ?_⟩
    · simp [turn_on_light, call_service, simple_get_state, Request.isReadState]
    · exact isSuccessResult_successMessage entity_id _ st
  | false =>
    simp only [Bool.false_eq_true, if_false] at hw ⊢
    rw [change_light_state, hw, hr]
    refine ⟨?_, rfl, ?_⟩
    · simp [turn_off_light, call_service, simple_get_state, Request.isReadState]
    · exact isSuccessResult_successMessage entity_id _ st

/-- C10: when turning a light off the brightness argument has no effect at all:
the call with a brightness value is identical (same trace, same result string)
to the call without one, and the single write command issued is the
parameterless turn_off write. -/
theorem change_light_state_off_ignores_brightness (p : Platform)
    (entity_id : String) (b : Nat) :
    change_light_state p entity_id false (some b)
        = change_light_state p entity_id false none
    ∧ (change_light_state p entity_id false (some b)).1.filter Request.isWrite
        = [Request.write "light" "turn_off" entity_id []] := by
  refine ⟨rfl, ?_⟩
  cases hw : (turn_off_light p entity_id).2 with
  | error e =>
    rw [change_light_state, hw]
    simp [turn_off_light, call_service, Request.isWrite]
  | ok bb =>
    cases bb with
    | false =>
      rw [change_light_state, hw]
      simp [turn_off_light, call_service, Request.isWrite]
    | true =>
      cases hr : (simple_get_state p entity_id).2 with
      | error e =>
        rw [change_light_state, hw, hr]
        simp [turn_off_light, call_service, simple_get_state, Request.isWrite]
      | ok st =>
        rw [change_light_state, hw, hr]
        simp [turn_off_light, call_service, simple_get_state, Request.isWrite]

/-- C7: when the bulk device-snapshot read answers a non-success status, search
returns the structured error payload describing the failure (the value the code
serializes as a JSON object with an error key) without raising. -/
theorem search_snapshot_error_payload (p : Platform) (pr : String → String → Nat)
    (query : String) (status : Nat) (txt : String)
    (body : Except String (List Entity))
    (hsnap : p.statesResp = HttpResp.resp status txt body) (hne : status ≠ 200) :
    (search_smart_home_devices p pr query).2
      = Except.ok (SearchOut.errorPayload
          ("Error: " ++ toString status ++ " - " ++ txt)) := by
  rw [search_smart_home_devices, hsnap]
  simp [beq_false_of_ne hne]

/-- Helper: on a 200 snapshot whose matching loop returns, the whole search
call is determined: the trace is the bulk read followed by one placement query
per accepted entry, and the result is the stable descending sort of the
accepted candidate records. -/
theorem search_ok (p : Platform) (pr : String → String → Nat) (query : String)
    (txt : String) (entities : List Entity) (cs : List Candidate)
    (hsnap : p.statesResp = HttpResp.resp 200 txt (Except.ok entities))
    (hok : (search_smart_home_devices p pr query).2
      = Except.ok (SearchOut.found cs)) :
    search_smart_home_devices p pr query
      = (Request.readAll ::
          (entities.filter (matchesB pr query)).map (fun e => Request.template e.entity_id),
         Except.ok (SearchOut.found (List.insertionSort candLE
           ((entities.filter (matchesB pr query)).map (candOf p pr query)))))
    ∧ cs = List.insertionSort candLE
        ((entities.filter (matchesB pr query)).map (candOf p pr query)) := by
  rcases hcm : collectMatches p pr query entities with ⟨t, r⟩
  cases r with
  | error e =>
    rw [search_smart_home_devices, hsnap] at hok
    simp only [hcm, reduceIte] at hok
    simp at hok
  | ok cs0 =>
    have hpair := collectMatches_ok p pr query entities cs0 (by rw [hcm])
    rw [hcm, Prod.mk.injEq] at hpair
    have hc0 := Except.ok.inj hpair.2
    rw [search_smart_home_devices, hsnap] at hok ⊢
    simp only [hcm, reduceIte] at hok ⊢
    have hfound := SearchOut.found.inj (Except.ok.inj hok)
    constructor
    · rw [hpair.1, hc0]
      rfl
    · rw [← hfound, hc0]

/-- C2: a snapshot entry appears in the search result (as a candidate carrying
its identifier and friendly name) exactly when the larger of its two fuzzy
scores, identifier against lower-cased query and friendly name against
lower-cased query, exceeds 70; in particular every entry scoring at most 70 on
both fields is absent. -/
theorem search_membership_iff (p : Platform) (pr : String → String → Nat)
    (query txt : String) (entities : List Entity) (cs : List Candidate)
    (e : Entity)
    (hsnap : p.statesResp = HttpResp.resp 200 txt (Except.ok entities))
    (hok : (search_smart_home_devices p pr query).2
      = Except.ok (SearchOut.found cs))
    (he : e ∈ entities) :
    (∃ c ∈ cs, c.entity_id = e.entity_id ∧ c.entity_name = e.friendly_name)
      ↔ 70 < max (idScore pr query e) (nameScore pr query e) := by
  obtain ⟨-, hcs⟩ := search_ok p pr query txt entities cs hsnap hok
  subst hcs
  constructor
  · rintro ⟨c, hc, hid, hname⟩
    rw [List.mem_insertionSort] at hc
    obtain ⟨e2, he2, rfl⟩ := List.mem_map.mp hc
    have he2m : matchesB pr query e2 = true := List.of_mem_filter he2
    have hid2 : e2.entity_id = e.entity_id := hid
    have hname2 : e2.friendly_name = e.friendly_name := hname
    have hidsc : idScore pr query e2 = idScore pr query e := by
      rw [idScore, idScore, hid2]
    have hnamesc : nameScore pr query e2 = nameScore pr query e := by
      rw [nameScore, nameScore, hname2]
    rw [matchesB, Bool.or_eq_true, decide_eq_true_eq, decide_eq_true_eq,
      hidsc, hnamesc] at he2m
    exact lt_max_iff.mpr he2m
  · intro hmax
    have hm : matchesB pr query e = true := by
      rw [matchesB, Bool.or_eq_true, decide_eq_true_eq, decide_eq_true_eq]
      exact lt_max_iff.mp hmax
    refine ⟨candOf p pr query e, ?_, rfl, rfl⟩
    rw [List.mem_insertionSort]
    exact List.mem_map_of_mem _ (List.mem_filter.mpr ⟨he, hm⟩)

/-- C3: the candidate list search returns is sorted by non-increasing
match_score, and restricting both the result and the accepted-candidate list
(which is in snapshot order) to any one score value yields the same list: the
sort is stable, so equal scores keep their snapshot order. -/
theorem search_sorted_stable (p : Platform) (pr : String → String → Nat)
    (query txt : String) (entities : List Entity) (cs : List Candidate)
    (s : Nat)
    (hsnap : p.statesResp = HttpResp.resp 200 txt (Except.ok entities))
    (hok : (search_smart_home_devices p pr query).2
      = Except.ok (SearchOut.found cs)) :
    List.Sorted (fun a b : Candidate => b.match_score ≤ a.match_score) cs
    ∧ cs.filter (fun c => c.match_score == s)
      = ((entities.filter (matchesB pr query)).map (candOf p pr query)).filter
          (fun c => c.match_score == s) := by
  obtain ⟨-, hcs⟩ := search_ok p pr query txt entities cs hsnap hok
  subst hcs
  exact ⟨List.sorted_insertionSort candLE _, filter_score_insertionSort s _⟩

/-- C8: the placement queries search issues are exactly one per accepted
snapshot entry, in snapshot order -- rejected entries trigger none -- and their
number equals the number of returned candidates. -/
theorem search_placement_lazy (p : Platform) (pr : String → String → Nat)
    (query txt : String) (entities : List Entity) (cs : List Candidate)
    (hsnap : p.statesResp = HttpResp.resp 200 txt (Except.ok entities))
    (hok : (search_smart_home_devices p pr query).2
      = Except.ok (SearchOut.found cs)) :
    (search_smart_home_devices p pr query).1.filter Request.isTemplate
      = (entities.filter (matchesB pr query)).map (fun e => Request.template e.entity_id)
    ∧ ((search_smart_home_devices p pr query).1.filter Request.isTemplate).length
      = cs.length := by
  obtain ⟨hpair, hcs⟩ := search_ok p pr query txt entities cs hsnap hok
  rw [hpair]
  have hfil : (Request.readAll ::
      (entities.filter (matchesB pr query)).map (fun e => Request.template e.entity_id)).filter
        Request.isTemplate
      = (entities.filter (matchesB pr query)).map (fun e => Request.template e.entity_id) := by
    rw [List.filter_cons]
    simp only [Request.isTemplate, if_false, Bool.false_eq_true]
    rw [List.filter_map]
    have : (Request.isTemplate ∘ fun e : Entity => Request.template e.entity_id)
        = fun _ => true := by
      funext e
      rfl
    rw [this, List.filter_true]
  refine ⟨hfil, ?_⟩
  rw [hfil, hcs, List.length_insertionSort, List.length_map, List.length_map]

/-- C9: an area lookup answered with a non-success status or an empty rendered
template yields an absent placement, and a search in which every placement
lookup fails one of these ways still succeeds, returning every accepted
candidate with an absent placement. -/
theorem search_placement_best_effort (p : Platform) (pr : String → String → Nat)
    (query txt : String) (entities : List Entity) (eid : String)
    (hsnap : p.statesResp = HttpResp.resp 200 txt (Except.ok entities))
    (hT : ∀ eid2, ∃ status text2,
      p.templateResp eid2 = HttpResp.resp status text2 ()
      ∧ (status ≠ 200 ∨ (pyStrip text2).data.isEmpty = true)) :
    (get_entity_area p eid).2 = Except.ok none
    ∧ (search_smart_home_devices p pr query).2
        = Except.ok (SearchOut.found (List.insertionSort candLE
            ((entities.filter (matchesB pr query)).map (candOf p pr query))))
    ∧ (List.insertionSort candLE
        ((entities.filter (matchesB pr query)).map (candOf p pr query))).all
          (fun c => c.entity_area.isNone) = true := by
  have hA : ∀ eid2, (get_entity_area p eid2).2 = Except.ok none := by
    intro eid2
    obtain ⟨s0, t0, hresp, hcase⟩ := hT eid2
    rw [get_entity_area, hresp]
    cases hcase with
    | inl hne => simp [beq_false_of_ne hne]
    | inr hempty =>
      by_cases hs : (s0 == 200) = true
      · simp [hs, hempty]
      · simp [hs]
  obtain ⟨cs0, hcs0⟩ := collectMatches_total p pr query
    (fun eid2 => ⟨none, hA eid2⟩) entities
  have hpair := collectMatches_ok p pr query entities cs0 hcs0
  refine ⟨hA eid, ?_, ?_⟩
  · rw [search_smart_home_devices, hsnap]
    simp only [hpair, reduceIte]
    rfl
  · rw [List.all_eq_true]
    intro c hc
    rw [List.mem_insertionSort] at hc
    obtain ⟨e2, _, rfl⟩ := List.mem_map.mp hc
    have : areaOk p e2.entity_id = none := by
      simp [areaOk, hA e2.entity_id]
    simp [candOf, this]

/-! ### Witnesses: each theorem with hypotheses applied at concrete inputs -/

/-- The concrete search result of the kitchen scenario against pOk with the
stand-in scorer: the kitchen sink light, area Kitchen, score 95. -/
def csW : List Candidate :=
  [⟨"light.kitchen_sink", "Kitchen Sink Light", some "Kitchen", 95⟩]

/-- C2 witness: the kitchen scenario instantiated -- the kitchen sink entry
scores 95 > 70 and indeed appears in the result. -/
theorem search_membership_iff_witness :
    (∃ c ∈ csW, c.entity_id = eKitchen.entity_id
      ∧ c.entity_name = eKitchen.friendly_name)
      ↔ 70 < max (idScore prKitchen "kitchen" eKitchen)
          (nameScore prKitchen "kitchen" eKitchen) :=
  search_membership_iff pOk prKitchen "kitchen" "" [eKitchen, eLiving] csW
    eKitchen rfl rfl (List.mem_cons_self eKitchen [eLiving])

/-- C3 witness: the kitchen scenario result is sorted and stable at score 95. -/
theorem search_sorted_stable_witness :
    List.Sorted (fun a b : Candidate => b.match_score ≤ a.match_score) csW
    ∧ csW.filter (fun c => c.match_score == 95)
      = (([eKitchen, eLiving].filter (matchesB prKitchen "kitchen")).map
          (candOf pOk prKitchen "kitchen")).filter (fun c => c.match_score == 95) :=
  search_sorted_stable pOk prKitchen "kitchen" "" [eKitchen, eLiving] csW 95
    rfl rfl

/-- C4 witness: against the platform whose writes answer 500, the turn-on call
issues one write, fails fast with the message naming identifier and action, and
performs no read-back. -/
theorem change_light_state_write_once_fail_fast_witness :
    ((change_light_state pWriteFail "light.x" true none).1.filter Request.isWrite).length = 1
    ∧ (change_light_state pWriteFail "light.x" true none).2
        = "Failed to turn " ++ "on " ++ "light.x"
    ∧ (change_light_state pWriteFail "light.x" true none).1.filter Request.isReadState = []
    ∧ ¬ isSuccessResult (change_light_state pWriteFail "light.x" true none).2 := by
  have h := change_light_state_write_once_fail_fast pWriteFail "light.x" true none
  have h2 := h.2 rfl
  exact ⟨h.1, h2.1, h2.2.1, h2.2.2⟩

/-- C5 witness: a raising write, a raising read-back after a successful write,
and an always-non-2xx platform, all at concrete inputs. -/
theorem change_light_state_never_raises_witness :
    (change_light_state pWriteExn "light.x" true none).2
      = "Error changing light state: " ++ "conn refused"
    ∧ (change_light_state pReadExn "light.x" true none).2
      = "Error changing light state: " ++ "boom"
    ∧ (change_light_state pWriteFail "light.x" true none).2
      = "Failed to turn " ++ "on " ++ "light.x"
    ∧ ¬ isSuccessResult (change_light_state pWriteFail "light.x" true none).2 := by
  refine ⟨?_, ?_, ?_, ?_⟩
  · exact (change_light_state_never_raises pWriteExn "light.x" true none).1
      "conn refused" rfl
  · exact (change_light_state_never_raises pReadExn "light.x" true none).2.1
      "boom" rfl rfl
  · exact ((change_light_state_never_raises pWriteFail "light.x" true none).2.2
      (fun _ _ _ _ => ⟨500, "boom", rfl, by decide⟩)).1
  · exact ((change_light_state_never_raises pWriteFail "light.x" true none).2.2
      (fun _ _ _ _ => ⟨500, "boom", rfl, by decide⟩)).2

/-- C6 witness: against the all-success platform, the turn-on call performs one
read-back and embeds the state token on in the success-shaped message. -/
theorem change_light_state_readback_witness :
    (change_light_state pOk "light.x" true none).1.filter Request.isReadState
      = [Request.readState "light.x"]
    ∧ (change_light_state pOk "light.x" true none).2
      = successMessage "light.x" ("Turned light on" ++ brightnessNote none)
          (some "on")
    ∧ isSuccessResult (change_light_state pOk "light.x" true none).2 := by
  have h := change_light_state_readback pOk "light.x" true none (some "on") rfl rfl
  exact ⟨h.1, h.2.1, h.2.2⟩

/-- C7 witness: the 503 snapshot platform yields the structured error payload. -/
theorem search_snapshot_error_payload_witness :
    (search_smart_home_devices pSnapshotDown prKitchen "kitchen").2
      = Except.ok (SearchOut.errorPayload
          ("Error: " ++ toString 503 ++ " - " ++ "unavailable")) :=
  search_snapshot_error_payload pSnapshotDown prKitchen "kitchen" 503
    "unavailable" (Except.ok []) rfl (by decide)

/-- C8 witness: in the kitchen scenario exactly one placement query is issued,
for the one accepted entry, matching the one returned candidate. -/
theorem search_placement_lazy_witness :
    (search_smart_home_devices pOk prKitchen "kitchen").1.filter Request.isTemplate
      = ([eKitchen, eLiving].filter (matchesB prKitchen "kitchen")).map
          (fun e => Request.template e.entity_id)
    ∧ ((search_smart_home_devices pOk prKitchen "kitchen").1.filter
        Request.isTemplate).length = csW.length :=
  search_placement_lazy pOk prKitchen "kitchen" "" [eKitchen, eLiving] csW
    rfl rfl

/-- C9 witness: against the platform whose template endpoint renders only
whitespace, area lookups come back absent and the search still succeeds with
every candidate placement absent. -/
theorem search_placement_best_effort_witness :
    (get_entity_area pAreaEmpty "light.kitchen_sink").2 = Except.ok none
    ∧ (search_smart_home_devices pAreaEmpty prKitchen "kitchen").2
        = Except.ok (SearchOut.found (List.insertionSort candLE
            (([eKitchen, eLiving].filter (matchesB prKitchen "kitchen")).map
              (candOf pAreaEmpty prKitchen "kitchen"))))
    ∧ (List.insertionSort candLE
        (([eKitchen, eLiving].filter (matchesB prKitchen "kitchen")).map
          (candOf pAreaEmpty prKitchen "kitchen"))).all
        (fun c => c.entity_area.isNone) = true :=
  search_placement_best_effort pAreaEmpty prKitchen "kitchen" ""
    [eKitchen, eLiving] "light.kitchen_sink" rfl
    (fun _ => ⟨200, "  ", rfl, Or.inr (by decide)⟩)

end SmartHome
